import Mathlib

/-!
Verification of the prosperity CPPG calculator (`src/prosperity_app.py`).

The script collects numeric inputs from UI widgets, evaluates a fixed
sequence of arithmetic formulas, and renders the results.  We embed the
computation shallowly over `ℚ` (the Python code computes with exact
decimal-entered floats; all claims are stated in exact arithmetic).
`Input` gathers every widget value the script reads, including those that
never feed a formula (`target_age`, `avg_motivation`, `engagement`,
`persistence_months`, the raw discount-rate percentage), so that
noninterference can be stated.  Python's `/` raises `ZeroDivisionError`
on a zero denominator; fallible divisions are modelled with `Option`.
-/

namespace Prosperity

/-- The widget values read by `prosperity_app.py` (lines 20-64).
`population` is supplied by the UI as an integer ≥ 1 but participates in
the arithmetic as a plain number, so it is carried as `ℚ`.
`discount_rate_percent` is the raw percentage entered at line 46 (the
script divides it by 100 immediately). -/
structure Input where
  cost_per_person : ℚ
  population : ℚ
  target_age : ℚ
  avg_motivation : ℚ
  engagement : ℚ
  persistence_months : ℚ
  math_sd : ℚ
  grad_rate_pp : ℚ
  college_enroll_pp : ℚ
  discount_rate_percent : ℚ
  math_gain_per_sd : ℚ
  earnings_gain_hs_vs_dropout : ℚ
  earnings_gain_college_vs_hs : ℚ
  fadeout_factor : ℚ
  scenario_multiplier : ℚ
deriving DecidableEq, Repr

/-- Line 46: `discount_rate = st.number_input(...) / 100`. -/
def discount_rate (i : Input) : ℚ := i.discount_rate_percent / 100

/-- Line 72: `gain_from_math = math_sd * math_gain_per_sd * (1 - fadeout_factor)`. -/
def gain_from_math (i : Input) : ℚ :=
  i.math_sd * i.math_gain_per_sd * (1 - i.fadeout_factor)

/-- Line 73: `gain_from_grad_rate = (grad_rate_pp / 100) * earnings_gain_hs_vs_dropout`. -/
def gain_from_grad_rate (i : Input) : ℚ :=
  (i.grad_rate_pp / 100) * i.earnings_gain_hs_vs_dropout

/-- Line 74: `gain_from_college = (college_enroll_pp / 100) * earnings_gain_college_vs_hs`. -/
def gain_from_college (i : Input) : ℚ :=
  (i.college_enroll_pp / 100) * i.earnings_gain_college_vs_hs

/-- Line 76: `total_gain_per_person = gain_from_math + gain_from_grad_rate + gain_from_college`. -/
def total_gain_per_person (i : Input) : ℚ :=
  gain_from_math i + gain_from_grad_rate i + gain_from_college i

/-- Line 79: `cppg = cost_per_person / total_gain_per_person if total_gain_per_person > 0 else None`. -/
def cppg (i : Input) : Option ℚ :=
  if total_gain_per_person i > 0 then
    some (i.cost_per_person / total_gain_per_person i)
  else
    none

/-- Python float division: raises `ZeroDivisionError` on a zero
denominator, modelled as `none`. -/
def pyDiv (a b : ℚ) : Option ℚ := if b = 0 then none else some (a / b)

/-- The numeric values rendered by the success branch of the output block
(lines 86-118).  `roi` is `none` exactly when line 92's `1 / cppg`
raises `ZeroDivisionError`; `adj_cppg` is `none` exactly when line 114
takes its `else None` arm. -/
structure SuccessOutput where
  cppg : ℚ
  roi : Option ℚ
  total_cost : ℚ
  total_gain : ℚ
  net_gain : ℚ
  scenario_multiplier : ℚ
  adj_gain : ℚ
  adj_cppg : Option ℚ
deriving DecidableEq, Repr

/-- The rendered outcome of one run of the output block (lines 84-118):
either the `st.error` message of line 85, or the success metrics. -/
inductive Result where
  | undefinedRatio (message : String) : Result
  | ok (out : SuccessOutput) : Result
deriving DecidableEq, Repr

/-- The message passed to `st.error` at line 85. -/
def errorMessage : String :=
  "Total prosperity gain per participant is zero or negative. Adjust inputs."

/-- The values computed and rendered by the success branch (lines
86-118).  Because that branch only runs when `total_gain_per_person > 0`,
the line-79 conditional assigned
`cppg = cost_per_person / total_gain_per_person`; the remaining fields
transcribe lines 92-114. -/
def successOutput (i : Input) : SuccessOutput :=
  let c := i.cost_per_person / total_gain_per_person i
  let adj := total_gain_per_person i * i.scenario_multiplier
  { cppg := c
    roi := pyDiv 1 c
    total_cost := i.cost_per_person * i.population
    total_gain := total_gain_per_person i * i.population
    net_gain := total_gain_per_person i * i.population -
      i.cost_per_person * i.population
    scenario_multiplier := i.scenario_multiplier
    adj_gain := adj
    adj_cppg := if adj > 0 then some (i.cost_per_person / adj) else none }

/-- One full evaluation of the script's calculation and output block
(lines 72-118). -/
def run (i : Input) : Result :=
  if total_gain_per_person i ≤ 0 then
    Result.undefinedRatio errorMessage
  else
    Result.ok (successOutput i)

/-- The numeric values a run displays: none in the failure branch (line 85
renders only a fixed error string), the metric values in the success
branch. -/
def Result.numbersShown : Result → List ℚ
  | Result.undefinedRatio _ => []
  | Result.ok o =>
      o.cppg :: (o.roi.toList ++
        [o.total_cost, o.total_gain, o.net_gain, o.scenario_multiplier] ++
        o.adj_cppg.toList)

/-- The end-to-end example of the spec (§8): default widget values with
the documented example inputs. -/
def specExample : Input :=
  { cost_per_person := 1000
    population := 1000
    target_age := 16
    avg_motivation := 3
    engagement := 5
    persistence_months := 6
    math_sd := 1/10
    grad_rate_pp := 5
    college_enroll_pp := 3
    discount_rate_percent := 3
    math_gain_per_sd := 80000
    earnings_gain_hs_vs_dropout := 300000
    earnings_gain_college_vs_hs := 600000
    fadeout_factor := 3/10
    scenario_multiplier := 1 }

/-- `specExample` with only the inert inputs changed, for the
noninterference witness. -/
def specExampleShifted : Input :=
  { specExample with
      discount_rate_percent := 7
      target_age := 30
      avg_motivation := 1
      engagement := 20
      persistence_months := 12 }

/-- An input whose three effect sizes are zero, so that
`total_gain_per_person = 0` and the failure branch runs. -/
def zeroDeltas : Input :=
  { specExample with math_sd := 0, grad_rate_pp := 0, college_enroll_pp := 0 }

/-- C1: the calculator computes the three gains and their sum by the
documented formulas, and on the spec's example inputs yields gains 5600,
15000, 18000, total 38600, and cppg = 1000/38600. -/
theorem C1_gain_formulas_and_example :
    (∀ i : Input,
      gain_from_math i = i.math_sd * i.math_gain_per_sd * (1 - i.fadeout_factor) ∧
      gain_from_grad_rate i = (i.grad_rate_pp / 100) * i.earnings_gain_hs_vs_dropout ∧
      gain_from_college i = (i.college_enroll_pp / 100) * i.earnings_gain_college_vs_hs ∧
      total_gain_per_person i =
        gain_from_math i + gain_from_grad_rate i + gain_from_college i) ∧
    gain_from_math specExample = 5600 ∧
    gain_from_grad_rate specExample = 15000 ∧
    gain_from_college specExample = 18000 ∧
    total_gain_per_person specExample = 38600 ∧
    cppg specExample = some (1000 / 38600) := by
  refine ⟨fun i => ⟨rfl, rfl, rfl, rfl⟩, ?_, ?_, ?_, ?_, ?_⟩ <;>
    norm_num [cppg, total_gain_per_person, gain_from_math, gain_from_grad_rate,
      gain_from_college, specExample]

/-- C2: the computation fails with the UndefinedRatio condition iff
`total_gain_per_person ≤ 0`; `cppg` is then absent, and otherwise equals
`cost_per_person / total_gain_per_person`; every run is either that
failure or a success output. -/
theorem C2_undefined_ratio_iff (i : Input) :
    ((∃ m, run i = Result.undefinedRatio m) ↔ total_gain_per_person i ≤ 0) ∧
    (total_gain_per_person i ≤ 0 → cppg i = none) ∧
    (0 < total_gain_per_person i →
      cppg i = some (i.cost_per_person / total_gain_per_person i)) ∧
    ((∃ m, run i = Result.undefinedRatio m) ∨ ∃ o, run i = Result.ok o) := by
  by_cases h : total_gain_per_person i ≤ 0
  · refine ⟨⟨fun _ => h, fun _ => ⟨errorMessage, by simp [run, h]⟩⟩,
      fun _ => ?_, fun hpos => absurd h (not_le.mpr hpos),
      Or.inl ⟨errorMessage, by simp [run, h]⟩⟩
    simp [cppg, not_lt.mpr h]
  · push_neg at h
    refine ⟨⟨?_, fun hle => absurd hle (not_le.mpr h)⟩,
      fun hle => absurd hle (not_le.mpr h),
      fun _ => by simp [cppg, h],
      Or.inr ⟨successOutput i, by simp [run, not_le.mpr h]⟩⟩
    rintro ⟨m, hm⟩
    simp [run, not_le.mpr h] at hm

/-- Witness for C2 at the spec's example input. -/
theorem C2_undefined_ratio_iff_witness :
    cppg specExample =
      some (specExample.cost_per_person / total_gain_per_person specExample) :=
  (C2_undefined_ratio_iff specExample).2.2.1
    (by norm_num [total_gain_per_person, gain_from_math, gain_from_grad_rate,
      gain_from_college, specExample])

/-- C3 as stated is false: on the concrete input `zeroDeltas` the failure
branch runs and none of the three intermediate gains is part of the
produced output (line 85 renders only a fixed error string). -/
theorem C3_counterexample :
    ¬ (gain_from_math zeroDeltas ∈ (run zeroDeltas).numbersShown ∧
       gain_from_grad_rate zeroDeltas ∈ (run zeroDeltas).numbersShown ∧
       gain_from_college zeroDeltas ∈ (run zeroDeltas).numbersShown) := by
  intro h
  have hnil : (run zeroDeltas).numbersShown = [] := by
    norm_num [run, Result.numbersShown, total_gain_per_person, gain_from_math,
      gain_from_grad_rate, gain_from_college, zeroDeltas, specExample]
  rw [hnil] at h
  exact absurd h.1 (List.not_mem_nil _)

/-- C3 amended: on every input taking the failure path the produced
output is exactly the fixed error message with no numeric values; the
three gains, though computed before the branch, are not part of it. -/
theorem C3_amended_failure_output (i : Input)
    (h : total_gain_per_person i ≤ 0) :
    run i = Result.undefinedRatio errorMessage ∧
    (run i).numbersShown = [] := by
  simp [run, h, Result.numbersShown]

/-- Witness for the amended C3 at the concrete input `zeroDeltas`. -/
theorem C3_amended_failure_output_witness :
    run zeroDeltas = Result.undefinedRatio errorMessage ∧
    (run zeroDeltas).numbersShown = [] :=
  C3_amended_failure_output zeroDeltas
    (by norm_num [total_gain_per_person, gain_from_math, gain_from_grad_rate,
      gain_from_college, zeroDeltas, specExample])

/-! Helper equations unfolding the success branch. -/

theorem run_of_pos (i : Input) (h : 0 < total_gain_per_person i) :
    run i = Result.ok (successOutput i) := by
  simp [run, not_le.mpr h]

theorem successOutput_cppg (i : Input) :
    (successOutput i).cppg = i.cost_per_person / total_gain_per_person i := rfl

theorem successOutput_roi (i : Input) :
    (successOutput i).roi =
      pyDiv 1 (i.cost_per_person / total_gain_per_person i) := rfl

theorem successOutput_adj_cppg (i : Input) :
    (successOutput i).adj_cppg =
      if total_gain_per_person i * i.scenario_multiplier > 0 then
        some (i.cost_per_person /
          (total_gain_per_person i * i.scenario_multiplier))
      else none := rfl

/-- C4: no computed output depends on `discount_rate` (nor on
`target_age`, `avg_motivation`, `engagement`, `persistence_months`): two
inputs agreeing on every other field produce identical results. -/
theorem C4_noninterference (i j : Input)
    (h1 : i.cost_per_person = j.cost_per_person)
    (h2 : i.population = j.population)
    (h3 : i.math_sd = j.math_sd)
    (h4 : i.grad_rate_pp = j.grad_rate_pp)
    (h5 : i.college_enroll_pp = j.college_enroll_pp)
    (h6 : i.math_gain_per_sd = j.math_gain_per_sd)
    (h7 : i.earnings_gain_hs_vs_dropout = j.earnings_gain_hs_vs_dropout)
    (h8 : i.earnings_gain_college_vs_hs = j.earnings_gain_college_vs_hs)
    (h9 : i.fadeout_factor = j.fadeout_factor)
    (h10 : i.scenario_multiplier = j.scenario_multiplier) :
    run i = run j ∧ cppg i = cppg j := by
  have htot : total_gain_per_person i = total_gain_per_person j := by
    simp [total_gain_per_person, gain_from_math, gain_from_grad_rate,
      gain_from_college, h3, h4, h5, h6, h7, h8, h9]
  constructor
  · simp [run, successOutput, htot, h1, h2, h10]
  · simp [cppg, htot, h1]

/-- Witness for C4: `specExampleShifted` differs from `specExample` only
in `discount_rate_percent`, `target_age`, `avg_motivation`, `engagement`
and `persistence_months`, and produces the same result. -/
theorem C4_noninterference_witness :
    run specExample = run specExampleShifted ∧
    cppg specExample = cppg specExampleShifted :=
  C4_noninterference specExample specExampleShifted
    rfl rfl rfl rfl rfl rfl rfl rfl rfl rfl

/-- C5: when `total_gain_per_person > 0` and the cost is non-negative as
the UI guarantees, the `roi = 1 / cppg` division at line 92 succeeds
exactly when `cost_per_person > 0`; at `cost_per_person = 0` the computed
`cppg` is `0` and the division has no value (`ZeroDivisionError`). -/
theorem C5_roi_defined_iff_cost_pos (i : Input)
    (hpos : 0 < total_gain_per_person i)
    (hc : 0 ≤ i.cost_per_person) :
    run i = Result.ok (successOutput i) ∧
    ((successOutput i).roi.isSome ↔ 0 < i.cost_per_person) ∧
    (i.cost_per_person = 0 →
      (successOutput i).cppg = 0 ∧ (successOutput i).roi = none) := by
  have hne : total_gain_per_person i ≠ 0 := ne_of_gt hpos
  refine ⟨run_of_pos i hpos, ?_, ?_⟩
  · rw [successOutput_roi]
    constructor
    · intro hs
      rcases lt_or_eq_of_le hc with hgt | h0
      · exact hgt
      · rw [← h0] at hs
        simp [pyDiv] at hs
    · intro hgt
      have hd : i.cost_per_person / total_gain_per_person i ≠ 0 :=
        div_ne_zero (ne_of_gt hgt) hne
      simp [pyDiv, hd]
  · intro h0
    rw [successOutput_cppg, successOutput_roi, h0]
    simp [pyDiv]

/-- Witness for C5 at the spec's example input. -/
theorem C5_roi_defined_iff_cost_pos_witness :
    run specExample = Result.ok (successOutput specExample) ∧
    ((successOutput specExample).roi.isSome ↔
      0 < specExample.cost_per_person) ∧
    (specExample.cost_per_person = 0 →
      (successOutput specExample).cppg = 0 ∧
      (successOutput specExample).roi = none) :=
  C5_roi_defined_iff_cost_pos specExample
    (by norm_num [total_gain_per_person, gain_from_math, gain_from_grad_rate,
      gain_from_college, specExample])
    (by norm_num [specExample])

/-- C6: whenever both ratios are defined, the scenario-adjusted ratio is
the plain ratio divided by the scenario multiplier. -/
theorem C6_scenario_scaling (i : Input)
    (h1 : 0 < total_gain_per_person i)
    (h2 : 0 < total_gain_per_person i * i.scenario_multiplier) :
    run i = Result.ok (successOutput i) ∧
    (successOutput i).adj_cppg =
      some ((successOutput i).cppg / i.scenario_multiplier) := by
  refine ⟨run_of_pos i h1, ?_⟩
  rw [successOutput_adj_cppg, successOutput_cppg, if_pos h2, div_div]

/-- Witness for C6 at the spec's example input. -/
theorem C6_scenario_scaling_witness :
    run specExample = Result.ok (successOutput specExample) ∧
    (successOutput specExample).adj_cppg =
      some ((successOutput specExample).cppg /
        specExample.scenario_multiplier) :=
  C6_scenario_scaling specExample
    (by norm_num [total_gain_per_person, gain_from_math, gain_from_grad_rate,
      gain_from_college, specExample])
    (by norm_num [total_gain_per_person, gain_from_math, gain_from_grad_rate,
      gain_from_college, specExample])

/-- C7: the cohort aggregates of the success branch are the documented
products and difference, exactly. -/
theorem C7_cohort_totals (i : Input) (h : 0 < total_gain_per_person i) :
    run i = Result.ok (successOutput i) ∧
    (successOutput i).total_cost = i.cost_per_person * i.population ∧
    (successOutput i).total_gain = total_gain_per_person i * i.population ∧
    (successOutput i).net_gain =
      (successOutput i).total_gain - (successOutput i).total_cost :=
  ⟨run_of_pos i h, rfl, rfl, rfl⟩

/-- Witness for C7 at the spec's example input. -/
theorem C7_cohort_totals_witness :
    run specExample = Result.ok (successOutput specExample) ∧
    (successOutput specExample).total_cost =
      specExample.cost_per_person * specExample.population ∧
    (successOutput specExample).total_gain =
      total_gain_per_person specExample * specExample.population ∧
    (successOutput specExample).net_gain =
      (successOutput specExample).total_gain -
        (successOutput specExample).total_cost :=
  C7_cohort_totals specExample
    (by norm_num [total_gain_per_person, gain_from_math, gain_from_grad_rate,
      gain_from_college, specExample])

/-- C8: with all three conversion factors positive and the fade-out
factor in [0,1], raising any single effect-size input while holding the
rest fixed does not decrease `total_gain_per_person`. -/
theorem C8_monotonicity (i : Input) (a b : ℚ) (hab : a ≤ b)
    (hmg : 0 < i.math_gain_per_sd)
    (hhs : 0 < i.earnings_gain_hs_vs_dropout)
    (hce : 0 < i.earnings_gain_college_vs_hs)
    (hf0 : 0 ≤ i.fadeout_factor) (hf1 : i.fadeout_factor ≤ 1) :
    total_gain_per_person { i with math_sd := a } ≤
      total_gain_per_person { i with math_sd := b } ∧
    total_gain_per_person { i with grad_rate_pp := a } ≤
      total_gain_per_person { i with grad_rate_pp := b } ∧
    total_gain_per_person { i with college_enroll_pp := a } ≤
      total_gain_per_person { i with college_enroll_pp := b } := by
  have hfade : (0:ℚ) ≤ 1 - i.fadeout_factor := by linarith
  simp only [total_gain_per_person, gain_from_math, gain_from_grad_rate,
    gain_from_college]
  refine ⟨?_, ?_, ?_⟩
  · nlinarith [mul_nonneg hmg.le hfade]
  · nlinarith [mul_nonneg (sub_nonneg.mpr hab) hhs.le]
  · nlinarith [mul_nonneg (sub_nonneg.mpr hab) hce.le]

/-- Witness for C8: increasing each effect size from 0.1 to 0.2 at the
spec's example conversion factors. -/
theorem C8_monotonicity_witness :
    total_gain_per_person { specExample with math_sd := 1/10 } ≤
      total_gain_per_person { specExample with math_sd := 1/5 } ∧
    total_gain_per_person { specExample with grad_rate_pp := 1/10 } ≤
      total_gain_per_person { specExample with grad_rate_pp := 1/5 } ∧
    total_gain_per_person { specExample with college_enroll_pp := 1/10 } ≤
      total_gain_per_person { specExample with college_enroll_pp := 1/5 } :=
  C8_monotonicity specExample (1/10) (1/5) (by norm_num)
    (by norm_num [specExample]) (by norm_num [specExample])
    (by norm_num [specExample]) (by norm_num [specExample])
    (by norm_num [specExample])

/-- C9: when both are defined, `roi = 1 / cppg = total_gain_per_person /
cost_per_person`, and `cppg * total_gain_per_person = cost_per_person`
exactly. -/
theorem C9_roi_inverse (i : Input)
    (h : 0 < total_gain_per_person i) (hc : 0 < i.cost_per_person) :
    run i = Result.ok (successOutput i) ∧
    (successOutput i).roi = some (1 / (successOutput i).cppg) ∧
    (successOutput i).roi =
      some (total_gain_per_person i / i.cost_per_person) ∧
    (successOutput i).cppg * total_gain_per_person i = i.cost_per_person := by
  have hne : total_gain_per_person i ≠ 0 := ne_of_gt h
  have hcne : i.cost_per_person ≠ 0 := ne_of_gt hc
  have hd : i.cost_per_person / total_gain_per_person i ≠ 0 :=
    div_ne_zero hcne hne
  refine ⟨run_of_pos i h, ?_, ?_, ?_⟩
  · rw [successOutput_roi, successOutput_cppg, pyDiv, if_neg hd]
  · rw [successOutput_roi, pyDiv, if_neg hd, one_div_div]
  · rw [successOutput_cppg, div_mul_cancel₀ _ hne]

/-- Witness for C9 at the spec's example input. -/
theorem C9_roi_inverse_witness :
    run specExample = Result.ok (successOutput specExample) ∧
    (successOutput specExample).roi =
      some (1 / (successOutput specExample).cppg) ∧
    (successOutput specExample).roi =
      some (total_gain_per_person specExample /
        specExample.cost_per_person) ∧
    (successOutput specExample).cppg * total_gain_per_person specExample =
      specExample.cost_per_person :=
  C9_roi_inverse specExample
    (by norm_num [total_gain_per_person, gain_from_math, gain_from_grad_rate,
      gain_from_college, specExample])
    (by norm_num [specExample])

/-- C10: the undefined arm of the scenario variant is unreachable: the
scenario block only runs when `total_gain_per_person > 0`, and with the
slider value in [0.5, 1.5] the adjusted gain is positive, so `adj_cppg`
is always a defined number. -/
theorem C10_adj_cppg_always_defined (i : Input)
    (h : 0 < total_gain_per_person i)
    (hm1 : 1/2 ≤ i.scenario_multiplier)
    (hm2 : i.scenario_multiplier ≤ 3/2) :
    run i = Result.ok (successOutput i) ∧
    0 < (successOutput i).adj_gain ∧
    (successOutput i).adj_cppg =
      some (i.cost_per_person /
        (total_gain_per_person i * i.scenario_multiplier)) := by
  have hadj : 0 < total_gain_per_person i * i.scenario_multiplier :=
    mul_pos h (by linarith)
  exact ⟨run_of_pos i h, hadj, by rw [successOutput_adj_cppg, if_pos hadj]⟩

/-- Witness for C10 at the spec's example input. -/
theorem C10_adj_cppg_always_defined_witness :
    run specExample = Result.ok (successOutput specExample) ∧
    0 < (successOutput specExample).adj_gain ∧
    (successOutput specExample).adj_cppg =
      some (specExample.cost_per_person /
        (total_gain_per_person specExample *
          specExample.scenario_multiplier)) :=
  C10_adj_cppg_always_defined specExample
    (by norm_num [total_gain_per_person, gain_from_math, gain_from_grad_rate,
      gain_from_college, specExample])
    (by norm_num [specExample]) (by norm_num [specExample])

end Prosperity
